import Mathlib

set_option maxRecDepth 100000

/-!
Shallow embedding of the metrics aggregation pipeline of
AdguardTeam/ResearchAdblockingWebPerformance
(`src/metrics-collector.ts` and `src/report-generator/report-generator.ts`).

Modelling conventions:
* JS numbers are modelled as rationals (`ℚ`); the arithmetic the pipeline
  performs (sums, divisions, `toFixed` rounding) is exact on the inputs the
  claims are about.
* A JS `Record<string, T>` object is modelled as an association list
  `List (String × T)`; JS objects have unique keys, property reads take the
  first matching entry.
* `undefined` / `null` are modelled as `Option.none`.
* A thrown error or a `process.exit(1)` is modelled as an `Option.none`
  result of the embedded function.
* The external `tldts.getDomain` function (eTLD+1 extraction) is passed in
  as an explicit parameter `gd : String → Option String`.
-/

/-- Test environments (`src/types.ts`). -/
inductive TestEnvironmentType where
  | none
  | baseline
  | dns
  | extension
  deriving DecidableEq, Repr

/-- `Number((x).toFixed(2))`: round to 2 decimal places (ties away from zero
for the nonnegative values manipulated here). -/
def toFixed2 (q : ℚ) : ℚ := ((round (q * 100) : ℤ) : ℚ) / 100

/-- `Number((x).toFixed(0))`: round to the nearest integer. -/
def toFixed0 (q : ℚ) : ℚ := ((round q : ℤ) : ℚ)

/-- Property read `r[k]` on a JS object modelled as an association list. -/
def recGet {α : Type} (r : List (String × α)) (k : String) : Option α :=
  (r.find? (fun p => p.1 == k)).map (fun p => p.2)

/-- `Object.keys`: the distinct keys of a record. -/
def recKeys {α : Type} (r : List (String × α)) : List String :=
  (r.map (fun p => p.1)).dedup

/-- `r[k] = (r[k] || 0) + c` on a JS object: update the entry when the key is
present, append a fresh entry otherwise. -/
def recBump (r : List (String × ℚ)) (k : String) (c : ℚ) : List (String × ℚ) :=
  if (recGet r k).isSome then
    r.map (fun p => if p.1 == k then (p.1, p.2 + c) else p)
  else r ++ [(k, c)]

/-- `Set.add` of a domain `d` into the set stored under key `k` (creating a
fresh one-element set when the key is absent). The set is kept as a
duplicate-free list. -/
def recAddSet (r : List (String × List String)) (k : String) (d : String) :
    List (String × List String) :=
  if (recGet r k).isSome then
    r.map (fun p => if p.1 == k then (p.1, if d ∈ p.2 then p.2 else p.2 ++ [d]) else p)
  else r ++ [(k, [d])]

/-- `Metrics.weight` (`src/metrics-collector.ts`). `thirdPartyBytes` is
optional in the TS type. -/
@[ext]
structure Weight where
  totalBytes : ℚ
  thirdPartyBytes : Option ℚ
  deriving DecidableEq, Repr

/-- `Metrics.requests` (`src/metrics-collector.ts`). The TS type declares
`hostnames` / `etldPlus1s` as always-present records, but the report
generator explicitly guards `if (entry.requests.hostnames)` against data
loaded from JSON that lacks them, so they are modelled as optional. -/
@[ext]
structure Requests where
  totalRequests : ℚ
  blockedRequests : ℚ
  notBlockedRequests : ℚ
  thirdPartyRequests : ℚ
  thirdPartyBlockedRequests : ℚ
  thirdPartyNotBlockedRequests : ℚ
  hostnames : Option (List (String × ℚ))
  etldPlus1s : Option (List (String × ℚ))
  deriving DecidableEq, Repr

/-- One page-load measurement (`Metrics`, `src/metrics-collector.ts`). -/
@[ext]
structure Metrics where
  url : String
  domain : String
  measureTime : String
  testEnv : TestEnvironmentType
  method : String
  domContentLoadTimeMs : Option ℚ
  loadTimeMs : Option ℚ
  weight : Weight
  requests : Requests
  deriving DecidableEq, Repr

/-- `MetricsData`: a JS object mapping each domain to its runs. -/
abbrev MetricsData := List (String × List Metrics)

/-- `MetricsCollector.calculateAverage`: mean of the selected field over the
runs where it is defined, rounded to 2 decimals; `0` when no run defines
it. -/
def calculateAverage (metrics : List Metrics) (selector : Metrics → Option ℚ) : ℚ :=
  let validMetrics := metrics.filter (fun m => (selector m).isSome)
  if validMetrics.length = 0 then 0
  else toFixed2 (((validMetrics.map (fun m => (selector m).getD 0)).sum) / (validMetrics.length : ℚ))

/-- `MetricsCollector.collectUniqueKeys`: the set of keys appearing in the
selected record of any run. -/
def collectUniqueKeys (array : List Metrics) (selector : Metrics → List (String × ℚ)) :
    List String :=
  ((array.map (fun m => (selector m).map (fun p => p.1))).flatten).dedup

/-- `MetricsCollector.computeAveragesForKeys`: for each key of `keys`, sum the
selected value over all runs (`undefined` contributing `0`), divide by the
full run count, round to 2 decimals, and keep the key only when the result is
strictly positive. -/
def computeAveragesForKeys (metricsArray : List Metrics) (keys : List String)
    (valueSelector : Metrics → String → Option ℚ) : List (String × ℚ) :=
  keys.filterMap (fun key =>
    let s := (metricsArray.map (fun m => (valueSelector m key).getD 0)).sum
    let average := toFixed2 (s / (metricsArray.length : ℚ))
    if 0 < average then some (key, average) else none)

/-- `MetricsCollector.computeHostnameAverages`. -/
def computeHostnameAverages (metricsArray : List Metrics) : List (String × ℚ) :=
  computeAveragesForKeys metricsArray
    (collectUniqueKeys metricsArray (fun m => m.requests.hostnames.getD []))
    (fun m key => recGet (m.requests.hostnames.getD []) key)

/-- `MetricsCollector.computeEtldPlusOneAverages`. -/
def computeEtldPlusOneAverages (metricsArray : List Metrics) : List (String × ℚ) :=
  computeAveragesForKeys metricsArray
    (collectUniqueKeys metricsArray (fun m => m.requests.etldPlus1s.getD []))
    (fun m key => recGet (m.requests.etldPlus1s.getD []) key)

/-- `MetricsCollector.computeAverageMetrics`. `none` models abnormal
termination: the explicit throw on an empty array, and the `TypeError` that
`Object.keys` raises when a run lacks its `hostnames` / `etldPlus1s`
record. -/
def computeAverageMetrics (metricsArray : List Metrics) : Option Metrics :=
  match metricsArray with
  | [] => none
  | m0 :: rest =>
    if (m0 :: rest).any (fun m => m.requests.hostnames.isNone || m.requests.etldPlus1s.isNone)
    then none
    else some
      { m0 with
        domContentLoadTimeMs :=
          some (calculateAverage (m0 :: rest) (fun m => m.domContentLoadTimeMs)),
        loadTimeMs := some (calculateAverage (m0 :: rest) (fun m => m.loadTimeMs)),
        weight :=
          { totalBytes := calculateAverage (m0 :: rest) (fun m => some m.weight.totalBytes),
            thirdPartyBytes :=
              some (calculateAverage (m0 :: rest) (fun m => m.weight.thirdPartyBytes)) },
        requests :=
          { totalRequests := calculateAverage (m0 :: rest) (fun m => some m.requests.totalRequests),
            blockedRequests :=
              calculateAverage (m0 :: rest) (fun m => some m.requests.blockedRequests),
            notBlockedRequests :=
              calculateAverage (m0 :: rest) (fun m => some m.requests.notBlockedRequests),
            thirdPartyRequests :=
              calculateAverage (m0 :: rest) (fun m => some m.requests.thirdPartyRequests),
            thirdPartyBlockedRequests :=
              calculateAverage (m0 :: rest) (fun m => some m.requests.thirdPartyBlockedRequests),
            thirdPartyNotBlockedRequests :=
              calculateAverage (m0 :: rest) (fun m => some m.requests.thirdPartyNotBlockedRequests),
            hostnames := some (computeHostnameAverages (m0 :: rest)),
            etldPlus1s := some (computeEtldPlusOneAverages (m0 :: rest)) } }

/-- `TrackerInfo` (`src/report-generator/report-generator.ts`). -/
structure TrackerInfo where
  name : String
  categoryId : ℤ
  url : Option String
  companyId : Option String
  deriving DecidableEq, Repr

/-- `TrackersData`: the static tracker reference table. -/
structure TrackersData where
  timeUpdated : String
  categories : List (String × String)
  trackers : List (String × TrackerInfo)
  trackerDomains : List (String × String)
  deriving DecidableEq, Repr

/-- `CompanyInfo` (`src/report-generator/report-generator.ts`). -/
structure CompanyInfo where
  name : String
  websiteUrl : Option String
  description : Option String
  deriving DecidableEq, Repr

/-- `CompaniesData`: the static company reference table. -/
structure CompaniesData where
  timeUpdated : String
  companies : List (String × CompanyInfo)
  deriving DecidableEq, Repr

/-- The two-step lookup `trackerDomains[x] && trackers[trackerDomains[x]]`:
a tracker is found when `trackerDomains` maps `x` to a truthy (non-empty)
tracker id that exists in `trackers`. -/
def lookupTracker (trackersInfo : TrackersData) (x : String) : Option TrackerInfo :=
  match recGet trackersInfo.trackerDomains x with
  | some tid => if tid != "" then recGet trackersInfo.trackers tid else none
  | none => none

/-- The tracker name `processTrackers` attributes to one observed hostname;
`none` models the early `return` that skips the hostname. When the hostname
has no exact match and `getDomain` yields nothing truthy, the code falls
through with `trackerName` still holding the hostname itself. -/
def trackerNameFor (gd : String → Option String) (trackersInfo : TrackersData)
    (hostname : String) : Option String :=
  match lookupTracker trackersInfo hostname with
  | some tr => some tr.name
  | none =>
    match gd hostname with
    | some etldPlus1 =>
      if etldPlus1 != "" then
        match lookupTracker trackersInfo etldPlus1 with
        | some tr => some tr.name
        | none => none
      else some hostname
    | none => some hostname

/-- `processTrackers` (`src/report-generator/report-generator.ts`): fold the
per-hostname attribution over the `hostnames` record, bumping the request
tally and the reached-websites set stored under the attributed name (names
that are the empty string are falsy and skipped). -/
def processTrackers (gd : String → Option String) (hostnames : List (String × ℚ))
    (trackersInfo : TrackersData)
    (trackersData : List (String × ℚ))
    (trackersWebsitesData : List (String × List String))
    (domain : String) :
    List (String × ℚ) × List (String × List String) :=
  hostnames.foldl
    (fun st hc =>
      match trackerNameFor gd trackersInfo hc.1 with
      | some trackerName =>
        if trackerName != "" then
          (recBump st.1 trackerName hc.2, recAddSet st.2 trackerName domain)
        else st
      | none => st)
    (trackersData, trackersWebsitesData)

/-- `companyId && companies[companyId]` resolution for a found tracker:
use the company's name when the tracker's `companyId` is truthy and known,
otherwise keep the already-computed default name. -/
def companyNameFromTracker (companiesInfo : CompaniesData) (tr : TrackerInfo)
    (dflt : String) : String :=
  match tr.companyId with
  | some cid =>
    if cid != "" then
      match recGet companiesInfo.companies cid with
      | some c => c.name
      | none => dflt
    else dflt
  | none => dflt

/-- The company name `processCompanies` attributes to one observed hostname;
`none` models the early `return` that skips the hostname. `companyName` is
initialised to `getDomain(hostname) || hostname` and only replaced when a
lookup succeeds. -/
def companyNameFor (gd : String → Option String) (trackersInfo : TrackersData)
    (companiesInfo : CompaniesData) (hostname : String) : Option String :=
  let dflt :=
    match gd hostname with
    | some e => if e != "" then e else hostname
    | none => hostname
  match lookupTracker trackersInfo hostname with
  | some tr => some (companyNameFromTracker companiesInfo tr dflt)
  | none =>
    match gd hostname with
    | some etldPlus1 =>
      if etldPlus1 != "" then
        match lookupTracker trackersInfo etldPlus1 with
        | some tr => some (companyNameFromTracker companiesInfo tr dflt)
        | none =>
          match recGet companiesInfo.companies ((etldPlus1.splitOn ".").headD "") with
          | some c => some c.name
          | none => none
      else some dflt
    | none => some dflt

/-- `processCompanies` (`src/report-generator/report-generator.ts`). -/
def processCompanies (gd : String → Option String) (domain : String)
    (hostnames : List (String × ℚ))
    (trackersInfo : TrackersData) (companiesInfo : CompaniesData)
    (companiesData : List (String × ℚ))
    (companiesWebsitesData : List (String × List String)) :
    List (String × ℚ) × List (String × List String) :=
  hostnames.foldl
    (fun st hc =>
      match companyNameFor gd trackersInfo companiesInfo hc.1 with
      | some companyName =>
        if companyName != "" then
          (recBump st.1 companyName hc.2, recAddSet st.2 companyName domain)
        else st
      | none => st)
    (companiesData, companiesWebsitesData)

/-- The scalar accumulators of `initializeAggregatedData`. -/
structure AggregatedData where
  totalDomContentLoadTime : ℚ
  totalLoadTime : ℚ
  totalBytes : ℚ
  totalRequests : ℚ
  totalThirdPartyRequests : ℚ
  totalBlockedRequests : ℚ
  totalHostnames : ℕ
  totalEtldPlus1s : ℕ
  deriving DecidableEq, Repr

/-- `initializeAggregatedData`. -/
def initializeAggregatedData : AggregatedData :=
  { totalDomContentLoadTime := 0
    totalLoadTime := 0
    totalBytes := 0
    totalRequests := 0
    totalThirdPartyRequests := 0
    totalBlockedRequests := 0
    totalHostnames := 0
    totalEtldPlus1s := 0 }

/-- The collection structures of `initializeCollectedData`. -/
structure CollectedData where
  hostnamesData : List (String × ℚ)
  etldPlus1Data : List (String × ℚ)
  trackersData : List (String × ℚ)
  companiesData : List (String × ℚ)
  etldPlus1WebsitesData : List (String × List String)
  companiesWebsitesData : List (String × List String)
  trackersWebsitesData : List (String × List String)
  deriving DecidableEq, Repr

/-- `initializeCollectedData`. -/
def initializeCollectedData : CollectedData :=
  { hostnamesData := []
    etldPlus1Data := []
    trackersData := []
    companiesData := []
    etldPlus1WebsitesData := []
    companiesWebsitesData := []
    trackersWebsitesData := [] }

/-- `aggregateBasicMetrics`: accumulate the scalar totals of one entry;
missing optional values contribute `0`. -/
def aggregateBasicMetrics (entry : Metrics) (aggregatedData : AggregatedData) :
    AggregatedData :=
  { aggregatedData with
    totalDomContentLoadTime :=
      aggregatedData.totalDomContentLoadTime + entry.domContentLoadTimeMs.getD 0
    totalLoadTime := aggregatedData.totalLoadTime + entry.loadTimeMs.getD 0
    totalBytes := aggregatedData.totalBytes + entry.weight.totalBytes
    totalRequests := aggregatedData.totalRequests + entry.requests.totalRequests
    totalThirdPartyRequests :=
      aggregatedData.totalThirdPartyRequests + entry.requests.thirdPartyRequests
    totalBlockedRequests :=
      aggregatedData.totalBlockedRequests + entry.requests.blockedRequests }

/-- `processHostnameData`: count the entry's distinct hostname keys, merge
the raw per-hostname tally, run the tracker and company attribution, and
record the current test domain as a website reaching each hostname's
eTLD+1. Only called when the entry has a `hostnames` record. -/
def processHostnameData (gd : String → Option String) (domain : String) (entry : Metrics)
    (trackersInfo : TrackersData) (companiesInfo : CompaniesData)
    (aggregatedData : AggregatedData) (collectedData : CollectedData) :
    AggregatedData × CollectedData :=
  let hs := entry.requests.hostnames.getD []
  let aggregatedData :=
    { aggregatedData with totalHostnames := aggregatedData.totalHostnames + (recKeys hs).length }
  let collectedData :=
    { collectedData with
      hostnamesData :=
        hs.foldl (fun r (p : String × ℚ) => recBump r p.1 p.2) collectedData.hostnamesData }
  let td := processTrackers gd hs trackersInfo
    collectedData.trackersData collectedData.trackersWebsitesData domain
  let collectedData :=
    { collectedData with trackersData := td.1, trackersWebsitesData := td.2 }
  let cd := processCompanies gd domain hs trackersInfo companiesInfo
    collectedData.companiesData collectedData.companiesWebsitesData
  let collectedData :=
    { collectedData with companiesData := cd.1, companiesWebsitesData := cd.2 }
  let collectedData :=
    { collectedData with
      etldPlus1WebsitesData :=
        (recKeys hs).foldl
          (fun r hostname =>
            match gd hostname with
            | some e => if e != "" then recAddSet r e domain else r
            | none => r)
          collectedData.etldPlus1WebsitesData }
  (aggregatedData, collectedData)

/-- `processEtldPlus1Data`: count the entry's distinct eTLD+1 keys and merge
the raw per-eTLD+1 tally. Only called when the entry has an `etldPlus1s`
record. -/
def processEtldPlus1Data (entry : Metrics)
    (aggregatedData : AggregatedData) (collectedData : CollectedData) :
    AggregatedData × CollectedData :=
  let es := entry.requests.etldPlus1s.getD []
  let aggregatedData :=
    { aggregatedData with totalEtldPlus1s := aggregatedData.totalEtldPlus1s + (recKeys es).length }
  let collectedData :=
    { collectedData with
      etldPlus1Data :=
        es.foldl (fun r (p : String × ℚ) => recBump r p.1 p.2) collectedData.etldPlus1Data }
  (aggregatedData, collectedData)

/-- `processAllDomains`: walk every domain of the data (a JS object, so its
keys are the domains) and every `Metrics` entry of that domain. -/
def processAllDomains (gd : String → Option String) (data : MetricsData)
    (trackersInfo : TrackersData) (companiesInfo : CompaniesData)
    (st : AggregatedData × CollectedData) : AggregatedData × CollectedData :=
  data.foldl
    (fun st dp =>
      dp.2.foldl
        (fun st entry =>
          let st1 := (aggregateBasicMetrics entry st.1, st.2)
          let st2 :=
            match entry.requests.hostnames with
            | some _ => processHostnameData gd dp.1 entry trackersInfo companiesInfo st1.1 st1.2
            | none => st1
          match entry.requests.etldPlus1s with
          | some _ => processEtldPlus1Data entry st2.1 st2.2
          | none => st2)
        st)
    st

/-- `convertSetsToCountMaps`: replace every reached-websites set by its
cardinality. -/
def convertSetsToCountMaps (collectedData : CollectedData) :
    List (String × ℕ) × List (String × ℕ) × List (String × ℕ) :=
  (collectedData.etldPlus1WebsitesData.map (fun p => (p.1, p.2.dedup.length)),
   collectedData.companiesWebsitesData.map (fun p => (p.1, p.2.dedup.length)),
   collectedData.trackersWebsitesData.map (fun p => (p.1, p.2.dedup.length)))

/-- The record produced by `calculateAverages`: every total divided by the
site count (no rounding). -/
structure Averages where
  averageDomContentLoadTime : ℚ
  averageLoadTime : ℚ
  averageBytes : ℚ
  averageRequests : ℚ
  averageThirdPartyRequests : ℚ
  averageBlockedRequests : ℚ
  averageHostnames : ℚ
  averageEtldPlus1s : ℚ
  deriving DecidableEq, Repr

/-- `calculateAverages`. -/
def calculateAverages (aggregatedData : AggregatedData) (siteCount : ℕ) : Averages :=
  { averageDomContentLoadTime := aggregatedData.totalDomContentLoadTime / (siteCount : ℚ)
    averageLoadTime := aggregatedData.totalLoadTime / (siteCount : ℚ)
    averageBytes := aggregatedData.totalBytes / (siteCount : ℚ)
    averageRequests := aggregatedData.totalRequests / (siteCount : ℚ)
    averageThirdPartyRequests := aggregatedData.totalThirdPartyRequests / (siteCount : ℚ)
    averageBlockedRequests := aggregatedData.totalBlockedRequests / (siteCount : ℚ)
    averageHostnames := (aggregatedData.totalHostnames : ℚ) / (siteCount : ℚ)
    averageEtldPlus1s := (aggregatedData.totalEtldPlus1s : ℚ) / (siteCount : ℚ) }

/-- `ReportResult` (`src/report-generator/report-generator.ts`). -/
structure ReportResult where
  siteCount : ℕ
  averageDomContentLoadTime : ℚ
  averageLoadTime : ℚ
  totalLoadTime : ℚ
  averageBytes : ℚ
  totalBytes : ℚ
  averageRequests : ℚ
  totalRequests : ℚ
  averageThirdPartyRequests : ℚ
  totalThirdPartyRequests : ℚ
  averageBlockedRequests : ℚ
  totalBlockedRequests : ℚ
  averageHostnames : ℚ
  totalHostnames : ℕ
  averageEtldPlus1s : ℚ
  totalEtldPlus1s : ℕ
  domainsData : MetricsData
  etldPlus1WebsitesData : List (String × ℕ)
  companiesWebsitesData : List (String × ℕ)
  trackersWebsitesData : List (String × ℕ)
  type : TestEnvironmentType
  deriving DecidableEq, Repr

/-- `assembleResult`: the three request-count totals pass through
`Number(x.toFixed(0))`, everything else is copied as computed. -/
def assembleResult (siteCount : ℕ) (aggregatedData : AggregatedData) (averages : Averages)
    (data : MetricsData)
    (etldPlus1WebsitesCounts : List (String × ℕ))
    (companiesWebsitesCounts : List (String × ℕ))
    (trackersWebsitesCounts : List (String × ℕ)) : ReportResult :=
  { siteCount := siteCount
    averageDomContentLoadTime := averages.averageDomContentLoadTime
    averageLoadTime := averages.averageLoadTime
    totalLoadTime := aggregatedData.totalLoadTime
    averageBytes := averages.averageBytes
    totalBytes := aggregatedData.totalBytes
    averageRequests := averages.averageRequests
    totalRequests := toFixed0 aggregatedData.totalRequests
    averageThirdPartyRequests := averages.averageThirdPartyRequests
    totalThirdPartyRequests := toFixed0 aggregatedData.totalThirdPartyRequests
    averageBlockedRequests := averages.averageBlockedRequests
    totalBlockedRequests := toFixed0 aggregatedData.totalBlockedRequests
    averageHostnames := averages.averageHostnames
    totalHostnames := aggregatedData.totalHostnames
    averageEtldPlus1s := averages.averageEtldPlus1s
    totalEtldPlus1s := aggregatedData.totalEtldPlus1s
    domainsData := data
    etldPlus1WebsitesData := etldPlus1WebsitesCounts
    companiesWebsitesData := companiesWebsitesCounts
    trackersWebsitesData := trackersWebsitesCounts
    type := TestEnvironmentType.baseline }

/-- `computeStatistics`. `siteCount` is `Object.keys(data).length`, which for
a JS object (unique keys) is the number of stored domains. -/
def computeStatistics (gd : String → Option String) (data : MetricsData)
    (trackersInfo : TrackersData) (companiesInfo : CompaniesData) : ReportResult :=
  let siteCount := data.length
  let st := processAllDomains gd data trackersInfo companiesInfo
    (initializeAggregatedData, initializeCollectedData)
  let counts := convertSetsToCountMaps st.2
  let averages := calculateAverages st.1 siteCount
  assembleResult siteCount st.1 averages data counts.1 counts.2.1 counts.2.2

/-- `MIN_REQUESTS_THRESHOLD`. -/
def MIN_REQUESTS_THRESHOLD : ℚ := 20

/-- `findCommonDomains`: intersect, over all input data sets, the domains
whose average `totalRequests` per entry meets the threshold. The result is
`none` exactly when the JS accumulator is still `null`, i.e. when the input
list is empty; this is the only case the subsequent
`if (!commonDomains) process.exit(1)` guard can fire on, because a `Set`
object (even an empty one) is truthy in JS. -/
def findCommonDomains (allData : List MetricsData) : Option (List String) :=
  allData.foldl
    (fun acc data =>
      let validDomains := (data.filter (fun dp =>
        let totalRequests := (dp.2.map (fun entry => entry.requests.totalRequests)).sum
        let avgRequests := totalRequests / (dp.2.length : ℚ)
        decide (MIN_REQUESTS_THRESHOLD ≤ avgRequests))).map (fun dp => dp.1)
      match acc with
      | none => some validDomains
      | some a => some (a.filter (fun d => validDomains.contains d)))
    none

/-- `filterDataByCommonDomains`: pure projection of a data set onto the
common domain set. -/
def filterDataByCommonDomains (data : MetricsData) (commonDomains : List String) :
    MetricsData :=
  data.filter (fun dp => commonDomains.contains dp.1)

/-- `determineTestEnvironment`: the `testEnv` of the first entry of the first
domain, defaulting to `baseline` when there is none; the string switch sends
`baseline`/`dns`/`extension` to themselves and everything else to `none`. -/
def determineTestEnvironment (data : MetricsData) : TestEnvironmentType :=
  match data with
  | [] => TestEnvironmentType.baseline
  | (_, entries) :: _ =>
    match entries with
    | [] => TestEnvironmentType.baseline
    | entry :: _ =>
      match entry.testEnv with
      | TestEnvironmentType.baseline => TestEnvironmentType.baseline
      | TestEnvironmentType.dns => TestEnvironmentType.dns
      | TestEnvironmentType.extension => TestEnvironmentType.extension
      | TestEnvironmentType.none => TestEnvironmentType.none

/-- The pure core of `generateReportResults`: one `ReportResult` per input
file, keyed by file name, computed on the data filtered to the common
domains, with the detected environment type patched in. -/
def generateReportResults (gd : String → Option String) (allData : List MetricsData)
    (commonDomains : List String) (fileNames : List String)
    (trackersInfo : TrackersData) (companiesInfo : CompaniesData) :
    List (String × ReportResult) :=
  (fileNames.zip allData).map (fun p =>
    let filteredData := filterDataByCommonDomains p.2 commonDomains
    let environmentType := determineTestEnvironment filteredData
    let result := computeStatistics gd filteredData trackersInfo companiesInfo
    (p.1, { result with type := environmentType }))

/-! ### Derived definitions used to state and prove the claims -/

/-- The number of distinct keys of an entry's `hostnames` record, `0` when the
entry has no such record: the quantity `processHostnameData` adds to
`totalHostnames`. -/
def hostKeyCount (e : Metrics) : ℕ :=
  (e.requests.hostnames.map (fun hs => (recKeys hs).length)).getD 0

/-- The number of distinct keys of an entry's `etldPlus1s` record, `0` when
the entry has no such record: the quantity `processEtldPlus1Data` adds to
`totalEtldPlus1s`. -/
def etldKeyCount (e : Metrics) : ℕ :=
  (e.requests.etldPlus1s.map (fun es => (recKeys es).length)).getD 0

/-- The effect one `Metrics` entry has on the scalar accumulators during
`processAllDomains`: the basic sums, plus the distinct-key counts when the
respective record is present. -/
def aggUpdate (e : Metrics) (a : AggregatedData) : AggregatedData :=
  let a := aggregateBasicMetrics e a
  let a :=
    match e.requests.hostnames with
    | some hs => { a with totalHostnames := a.totalHostnames + (recKeys hs).length }
    | none => a
  match e.requests.etldPlus1s with
  | some es => { a with totalEtldPlus1s := a.totalEtldPlus1s + (recKeys es).length }
  | none => a

/-- The two-tier tracker resolution shared by `processTrackers` and
`processCompanies`: exact hostname match first, then the hostname's truthy
eTLD+1. -/
def resolvedTracker (gd : String → Option String) (trackersInfo : TrackersData)
    (hostname : String) : Option TrackerInfo :=
  match lookupTracker trackersInfo hostname with
  | some tr => some tr
  | none =>
    match gd hostname with
    | some e => if e != "" then lookupTracker trackersInfo e else none
    | none => none

/-- `getDomain(hostname) || hostname`: the name `processCompanies` starts
from before any lookup succeeds. -/
def companyDefaultName (gd : String → Option String) (hostname : String) : String :=
  match gd hostname with
  | some e => if e != "" then e else hostname
  | none => hostname

/-! ### Concrete fixtures -/

/-- An empty tracker reference table. -/
def emptyTrackers : TrackersData :=
  { timeUpdated := "", categories := [], trackers := [], trackerDomains := [] }

/-- An empty company reference table. -/
def emptyCompanies : CompaniesData :=
  { timeUpdated := "", companies := [] }

/-- A `getDomain` model that never finds a registrable domain. -/
def gdNone : String → Option String := fun _ => none

/-- A baseline single-run measurement used to build concrete inputs. -/
def sampleMetric : Metrics :=
  { url := "http://example.com"
    domain := "example.com"
    measureTime := "2024-01-01T00:00:00Z"
    testEnv := TestEnvironmentType.extension
    method := "puppeteer"
    domContentLoadTimeMs := some 100
    loadTimeMs := some 200
    weight := { totalBytes := 1000, thirdPartyBytes := some 500 }
    requests :=
      { totalRequests := 10
        blockedRequests := 2
        notBlockedRequests := 8
        thirdPartyRequests := 5
        thirdPartyBlockedRequests := 1
        thirdPartyNotBlockedRequests := 4
        hostnames := some []
        etldPlus1s := some [] } }

/-- Replace both key-count records of `sampleMetric`. -/
def sampleWith (hs es : List (String × ℚ)) : Metrics :=
  { sampleMetric with
    requests := { sampleMetric.requests with hostnames := some hs, etldPlus1s := some es } }

/-- C1 witness input: a key present with value 3 in 1 of 3 runs, and a key
present with value 0 in every run. -/
def c1Runs : List Metrics :=
  [sampleWith [("once.com", 3), ("zero.com", 0)] [("once.com", 3)],
   sampleWith [("zero.com", 0)] [],
   sampleWith [("zero.com", 0)] []]

/-- The record `computeAverageMetrics` produces on `c1Runs`. -/
def c1Out : Metrics := (computeAverageMetrics c1Runs).getD sampleMetric

/-- C7 witness input: `loadTimeMs` defined in 2 of 3 runs. -/
def c7Runs : List Metrics :=
  [{ sampleMetric with loadTimeMs := some 100 },
   { sampleMetric with loadTimeMs := none },
   { sampleMetric with loadTimeMs := some 300 }]

/-- The record `computeAverageMetrics` produces on `c7Runs`. -/
def c7Out : Metrics := (computeAverageMetrics c7Runs).getD sampleMetric

/-- C8 counterexample input: three runs that each satisfy
`blocked + notBlocked = total` but whose independently rounded averages
(0.33, 0.33, 0.67) do not. -/
def c8Runs : List Metrics :=
  [{ sampleMetric with
     requests := { sampleMetric.requests with
       totalRequests := 1, blockedRequests := 1, notBlockedRequests := 0,
       thirdPartyRequests := 0, thirdPartyBlockedRequests := 0,
       thirdPartyNotBlockedRequests := 0 } },
   { sampleMetric with
     requests := { sampleMetric.requests with
       totalRequests := 1, blockedRequests := 0, notBlockedRequests := 1,
       thirdPartyRequests := 0, thirdPartyBlockedRequests := 0,
       thirdPartyNotBlockedRequests := 0 } },
   { sampleMetric with
     requests := { sampleMetric.requests with
       totalRequests := 0, blockedRequests := 0, notBlockedRequests := 0,
       thirdPartyRequests := 0, thirdPartyBlockedRequests := 0,
       thirdPartyNotBlockedRequests := 0 } }]

/-- The record `computeAverageMetrics` produces on `c8Runs`. -/
def c8Out : Metrics := (computeAverageMetrics c8Runs).getD sampleMetric

/-- The record `computeAverageMetrics` produces on the single run
`sampleMetric` (C8 witness input). -/
def c8wOut : Metrics := (computeAverageMetrics [sampleMetric]).getD sampleMetric

/-- The record `computeAverageMetrics` produces on the single run
`sampleMetric` (C9 witness input). -/
def c9Out : Metrics := (computeAverageMetrics [sampleMetric]).getD sampleMetric

/-- An entry meeting the reliability threshold (average 20 requests). -/
def c3Entry : Metrics :=
  { sampleMetric with requests := { sampleMetric.requests with totalRequests := 20 } }

/-- C3 input: two metrics files whose threshold-passing domains are disjoint,
so the common-domain intersection is empty. -/
def c3Data : List MetricsData := [[("a.com", [c3Entry])], [("b.com", [c3Entry])]]

/-- C4 input: one tested site whose only observed hostname has no tracker
match and no derivable eTLD+1. -/
def c4Data : MetricsData :=
  [("site.com", [sampleWith [("localhost", 3)] []])]

/-- A tracker whose `companyId` is null (C5). -/
def c5TrackerInfo : TrackerInfo :=
  { name := "SomeTracker", categoryId := 0, url := none, companyId := none }

/-- C5 tracker table: `t.a.com` maps to the company-less tracker. -/
def c5Trackers : TrackersData :=
  { timeUpdated := "", categories := [],
    trackers := [("tr1", c5TrackerInfo)],
    trackerDomains := [("t.a.com", "tr1")] }

/-- C5 `getDomain` model: `t.a.com` has registrable domain `a.com`. -/
def c5gd : String → Option String :=
  fun h => if h == "t.a.com" then some "a.com" else none

/-- C6 counterexample input: a single entry whose `totalRequests` is not an
integer, so the reported total (rounded by `toFixed(0)`) differs from the
sum. -/
def c6BadData : MetricsData :=
  [("d.com", [{ sampleMetric with
    requests := { sampleMetric.requests with totalRequests := 1/2 } }])]

/-- First scenario entry of the jest `computeStatistics` test
(`example.com`). -/
def scenEntryA : Metrics :=
  { sampleMetric with
    domContentLoadTimeMs := some 1000
    loadTimeMs := some 2000
    weight := { totalBytes := 1500, thirdPartyBytes := some 500 }
    requests :=
      { totalRequests := 20
        blockedRequests := 5
        notBlockedRequests := 15
        thirdPartyRequests := 10
        thirdPartyBlockedRequests := 2
        thirdPartyNotBlockedRequests := 8
        hostnames := some [("example.com", 10), ("analytics.com", 5), ("cdn.example.com", 5)]
        etldPlus1s := some [("example.com", 15), ("analytics.com", 5)] } }

/-- Second scenario entry of the jest `computeStatistics` test
(`test.com`). -/
def scenEntryB : Metrics :=
  { sampleMetric with
    domContentLoadTimeMs := some 500
    loadTimeMs := some 1000
    weight := { totalBytes := 1000, thirdPartyBytes := some 300 }
    requests :=
      { totalRequests := 10
        blockedRequests := 2
        notBlockedRequests := 8
        thirdPartyRequests := 4
        thirdPartyBlockedRequests := 1
        thirdPartyNotBlockedRequests := 3
        hostnames := some [("test.com", 6), ("analytics.com", 4)]
        etldPlus1s := some [("test.com", 6), ("analytics.com", 4)] } }

/-- The two-domain scenario data of the spec and the jest test. -/
def scenData : MetricsData :=
  [("example.com", [scenEntryA]), ("test.com", [scenEntryB])]

/-! ### Basic lemmas about the record model and the rounding function -/

theorem recGet_cons {α : Type} (a : String × α) (l : List (String × α)) (k : String) :
    recGet (a :: l) k = if a.1 == k then some a.2 else recGet l k := by
  by_cases h : a.1 == k <;> simp [recGet, List.find?_cons, h]

theorem recGet_eq_none {α : Type} {l : List (String × α)} {k : String} :
    recGet l k = none ↔ k ∉ l.map Prod.fst := by
  induction l with
  | nil => simp [recGet]
  | cons a t ih =>
    rw [recGet_cons]
    by_cases h : a.1 = k
    · simp [h]
    · simp [h, ih, beq_iff_eq, Ne.symm h]

theorem recGet_of_mem_nodup {α : Type} {l : List (String × α)} {p : String × α}
    (hn : (l.map Prod.fst).Nodup) (hp : p ∈ l) : recGet l p.1 = some p.2 := by
  induction l with
  | nil => simp at hp
  | cons a t ih =>
    rw [recGet_cons]
    rcases List.mem_cons.mp hp with h | h
    · subst h; simp
    · have hne : a.1 ≠ p.1 := by
        intro he
        have : p.1 ∈ t.map Prod.fst := List.mem_map_of_mem Prod.fst h
        rw [← he] at this
        exact (List.nodup_cons.mp hn).1 this
      have := ih (List.nodup_cons.mp hn).2 h
      simp [beq_iff_eq, hne, this]

theorem toFixed2_zero : toFixed2 0 = 0 := by
  simp [toFixed2]

theorem toFixed2_toFixed2 (q : ℚ) : toFixed2 (toFixed2 q) = toFixed2 q := by
  unfold toFixed2
  rw [div_mul_cancel₀ _ (by norm_num : (100 : ℚ) ≠ 0), round_intCast]

theorem abs_toFixed2_sub (q : ℚ) : |toFixed2 q - q| ≤ 1 / 200 := by
  unfold toFixed2
  have h : ((round (q * 100) : ℤ) : ℚ) / 100 - q = -((q * 100 - (round (q * 100) : ℤ)) / 100) := by
    ring
  rw [h, abs_neg, abs_div, abs_of_pos (by norm_num : (0 : ℚ) < 100)]
  have := abs_sub_round (q * 100)
  linarith

theorem toFixed2_mono {a b : ℚ} (h : a ≤ b) : toFixed2 a ≤ toFixed2 b := by
  unfold toFixed2
  have h1 : a * 100 ≤ b * 100 := by linarith
  have h2 : round (a * 100) ≤ round (b * 100) := by
    rw [round_eq, round_eq]
    exact Int.floor_le_floor (by linarith)
  have h3 : ((round (a * 100) : ℤ) : ℚ) ≤ ((round (b * 100) : ℤ) : ℚ) := by exact_mod_cast h2
  linarith

/-! ### Lemmas about `calculateAverage` -/

theorem filterMap_eq_filter_map {α : Type} (sel : α → Option ℚ) (l : List α) :
    l.filterMap sel = (l.filter (fun m => (sel m).isSome)).map (fun m => (sel m).getD 0) := by
  induction l with
  | nil => rfl
  | cons a t ih => cases h : sel a <;> simp [List.filter_cons, h, ih]

theorem calculateAverage_eq_filterMap (sel : Metrics → Option ℚ) (l : List Metrics) :
    calculateAverage l sel =
      if l.filterMap sel = [] then 0
      else toFixed2 ((l.filterMap sel).sum / ((l.filterMap sel).length : ℚ)) := by
  rw [filterMap_eq_filter_map]
  unfold calculateAverage
  simp [List.length_eq_zero]

theorem calculateAverage_total (f : Metrics → ℚ) (l : List Metrics) (hl : l ≠ []) :
    calculateAverage l (fun m => some (f m)) = toFixed2 ((l.map f).sum / (l.length : ℚ)) := by
  unfold calculateAverage
  simp [List.length_eq_zero, hl]

theorem calculateAverage_single (sel : Metrics → Option ℚ) (m : Metrics) :
    calculateAverage [m] sel = ((sel m).map toFixed2).getD 0 := by
  cases h : sel m <;> simp [calculateAverage, h]

theorem toFixed2_calculateAverage (sel : Metrics → Option ℚ) (l : List Metrics) :
    toFixed2 (calculateAverage l sel) = calculateAverage l sel := by
  by_cases h : (List.filter (fun m => (sel m).isSome) l).length = 0 <;>
    simp [calculateAverage, h, toFixed2_zero, toFixed2_toFixed2]

/-! ### Lemmas about `computeAveragesForKeys` and `collectUniqueKeys` -/

theorem recGet_computeAveragesForKeys (arr : List Metrics) (keys : List String)
    (vs : Metrics → String → Option ℚ) (hk : keys.Nodup) (k : String) :
    recGet (computeAveragesForKeys arr keys vs) k =
      if k ∈ keys then
        (if 0 < toFixed2 ((arr.map (fun m => (vs m k).getD 0)).sum / (arr.length : ℚ))
         then some (toFixed2 ((arr.map (fun m => (vs m k).getD 0)).sum / (arr.length : ℚ)))
         else none)
      else none := by
  induction keys with
  | nil => simp [computeAveragesForKeys, recGet]
  | cons a t ih =>
    have ht : t.Nodup := (List.nodup_cons.mp hk).2
    have hat : a ∉ t := (List.nodup_cons.mp hk).1
    rw [computeAveragesForKeys, List.filterMap_cons]
    by_cases hcond :
        0 < toFixed2 ((arr.map (fun m => (vs m a).getD 0)).sum / (arr.length : ℚ))
    · rw [if_pos hcond]
      rw [recGet_cons]
      by_cases hak : a = k
      · subst hak
        simp [hcond]
      · have : ¬ (a == k) := by simp [hak]
        rw [if_neg this]
        rw [show (t.filterMap fun key =>
            if 0 < toFixed2 ((arr.map fun m => (vs m key).getD 0).sum / (arr.length : ℚ))
            then some (key, toFixed2 ((arr.map fun m => (vs m key).getD 0).sum / (arr.length : ℚ)))
            else none) = computeAveragesForKeys arr t vs from rfl]
        rw [ih ht]
        simp [List.mem_cons, hak, Ne.symm hak]
    · rw [if_neg hcond]
      rw [show (t.filterMap fun key =>
          if 0 < toFixed2 ((arr.map fun m => (vs m key).getD 0).sum / (arr.length : ℚ))
          then some (key, toFixed2 ((arr.map fun m => (vs m key).getD 0).sum / (arr.length : ℚ)))
          else none) = computeAveragesForKeys arr t vs from rfl]
      rw [ih ht]
      by_cases hak : a = k
      · subst hak
        simp [hat, hcond]
      · simp [List.mem_cons, hak, Ne.symm hak]

theorem mem_computeAveragesForKeys (arr : List Metrics) (keys : List String)
    (vs : Metrics → String → Option ℚ) (p : String × ℚ)
    (hp : p ∈ computeAveragesForKeys arr keys vs) :
    p.1 ∈ keys ∧ 0 < p.2 ∧ toFixed2 p.2 = p.2 := by
  rw [computeAveragesForKeys, List.mem_filterMap] at hp
  obtain ⟨k, hk, hf⟩ := hp
  by_cases hcond :
      0 < toFixed2 ((arr.map (fun m => (vs m k).getD 0)).sum / (arr.length : ℚ))
  · rw [if_pos hcond] at hf
    obtain rfl := Option.some_inj.mp hf
    exact ⟨hk, hcond, toFixed2_toFixed2 _⟩
  · rw [if_neg hcond] at hf
    exact absurd hf (by simp)

theorem computeAveragesForKeys_keys_sublist (arr : List Metrics) (keys : List String)
    (vs : Metrics → String → Option ℚ) :
    ((computeAveragesForKeys arr keys vs).map Prod.fst).Sublist keys := by
  induction keys with
  | nil => simp [computeAveragesForKeys]
  | cons a t ih =>
    rw [computeAveragesForKeys, List.filterMap_cons]
    split
    · exact List.Sublist.cons a ih
    · rename_i b hb
      have : b = (a, toFixed2 ((arr.map (fun m => (vs m a).getD 0)).sum / (arr.length : ℚ))) := by
        by_cases hcond :
            0 < toFixed2 ((arr.map (fun m => (vs m a).getD 0)).sum / (arr.length : ℚ))
        · rw [if_pos hcond] at hb; exact (Option.some_inj.mp hb).symm
        · rw [if_neg hcond] at hb; exact absurd hb (by simp)
      subst this
      simpa using List.Sublist.cons₂ a ih

theorem mem_collectUniqueKeys (arr : List Metrics) (sel : Metrics → List (String × ℚ))
    (k : String) :
    k ∈ collectUniqueKeys arr sel ↔ ∃ m ∈ arr, k ∈ (sel m).map Prod.fst := by
  simp [collectUniqueKeys, List.mem_dedup, List.mem_flatten]

theorem nodup_collectUniqueKeys (arr : List Metrics) (sel : Metrics → List (String × ℚ)) :
    (collectUniqueKeys arr sel).Nodup :=
  List.nodup_dedup _

theorem sum_zero_of_not_mem_collectUniqueKeys (arr : List Metrics)
    (sel : Metrics → List (String × ℚ)) (k : String)
    (hk : k ∉ collectUniqueKeys arr sel) :
    (arr.map (fun m => (recGet (sel m) k).getD 0)).sum = 0 := by
  apply List.sum_eq_zero
  intro x hx
  rw [List.mem_map] at hx
  obtain ⟨m, hm, rfl⟩ := hx
  have : k ∉ (sel m).map Prod.fst := by
    intro hmem
    exact hk ((mem_collectUniqueKeys arr sel k).mpr ⟨m, hm, hmem⟩)
  rw [recGet_eq_none.mpr this]
  rfl

/-! ### Expansion of `computeAverageMetrics` on a non-empty list -/

theorem computeAverageMetrics_cons_eq (m0 : Metrics) (rest : List Metrics) (out : Metrics)
    (h : computeAverageMetrics (m0 :: rest) = some out) :
    out =
      { m0 with
        domContentLoadTimeMs :=
          some (calculateAverage (m0 :: rest) (fun m => m.domContentLoadTimeMs)),
        loadTimeMs := some (calculateAverage (m0 :: rest) (fun m => m.loadTimeMs)),
        weight :=
          { totalBytes := calculateAverage (m0 :: rest) (fun m => some m.weight.totalBytes),
            thirdPartyBytes :=
              some (calculateAverage (m0 :: rest) (fun m => m.weight.thirdPartyBytes)) },
        requests :=
          { totalRequests := calculateAverage (m0 :: rest) (fun m => some m.requests.totalRequests),
            blockedRequests :=
              calculateAverage (m0 :: rest) (fun m => some m.requests.blockedRequests),
            notBlockedRequests :=
              calculateAverage (m0 :: rest) (fun m => some m.requests.notBlockedRequests),
            thirdPartyRequests :=
              calculateAverage (m0 :: rest) (fun m => some m.requests.thirdPartyRequests),
            thirdPartyBlockedRequests :=
              calculateAverage (m0 :: rest) (fun m => some m.requests.thirdPartyBlockedRequests),
            thirdPartyNotBlockedRequests :=
              calculateAverage (m0 :: rest) (fun m => some m.requests.thirdPartyNotBlockedRequests),
            hostnames := some (computeHostnameAverages (m0 :: rest)),
            etldPlus1s := some (computeEtldPlusOneAverages (m0 :: rest)) } } := by
  simp only [computeAverageMetrics] at h
  by_cases hg :
      ((m0 :: rest).any fun m => m.requests.hostnames.isNone || m.requests.etldPlus1s.isNone) = true
  · rw [if_pos hg] at h
    exact absurd h (by simp)
  · rw [if_neg hg] at h
    exact (Option.some_inj.mp h).symm

/-! ### Reconstruction of a stable record by single-run averaging -/

theorem filterMap_eq_map_of_forall {α β : Type} (g : α → Option β) (f : α → β) (l : List α)
    (H : ∀ a ∈ l, g a = some (f a)) : l.filterMap g = l.map f := by
  induction l with
  | nil => rfl
  | cons a t ih =>
    rw [List.filterMap_cons, H a (by simp), List.map_cons,
      ih (fun x hx => H x (by simp [hx]))]

theorem map_keys_recGet {l : List (String × ℚ)} (hn : (l.map Prod.fst).Nodup) :
    (l.map Prod.fst).map (fun k => (k, (recGet l k).getD 0)) = l := by
  induction l with
  | nil => rfl
  | cons a t ih =>
    rw [List.map_cons, List.map_cons]
    have hhead : ((a.1, (recGet (a :: t) a.1).getD 0) : String × ℚ) = a := by
      rw [recGet_cons]
      simp
    have htail : (t.map Prod.fst).map (fun k => (k, (recGet (a :: t) k).getD 0))
        = (t.map Prod.fst).map (fun k => (k, (recGet t k).getD 0)) := by
      apply List.map_congr_left
      intro k hk
      have hne : a.1 ≠ k := fun he => (List.nodup_cons.mp hn).1 (he ▸ hk)
      rw [recGet_cons, if_neg (by simp [hne])]
    rw [hhead, htail, ih (List.nodup_cons.mp hn).2]

theorem computeAveragesForKeys_single (mv : Metrics) (vs : Metrics → String → Option ℚ)
    (l : List (String × ℚ)) (hsel : ∀ k, vs mv k = recGet l k)
    (hn : (l.map Prod.fst).Nodup) (hv : ∀ p ∈ l, 0 < p.2 ∧ toFixed2 p.2 = p.2) :
    computeAveragesForKeys [mv] (l.map Prod.fst) vs = l := by
  rw [computeAveragesForKeys,
    filterMap_eq_map_of_forall _ (fun k => (k, (recGet l k).getD 0))]
  · exact map_keys_recGet hn
  · intro k hk
    obtain ⟨p, hp, rfl⟩ := List.mem_map.mp hk
    have hval : recGet l p.1 = some p.2 := recGet_of_mem_nodup hn hp
    have hp2 := hv p hp
    simp only [List.map_cons, List.map_nil, List.sum_cons, List.sum_nil, add_zero,
      List.length_cons, List.length_nil, Nat.cast_one, div_one, hsel, hval, Option.getD_some,
      Nat.cast_ofNat, Nat.zero_add]
    rw [hp2.2, if_pos hp2.1]

theorem computeHostnameAverages_single (mv : Metrics) (l : List (String × ℚ))
    (hm : mv.requests.hostnames = some l)
    (hn : (l.map Prod.fst).Nodup) (hv : ∀ p ∈ l, 0 < p.2 ∧ toFixed2 p.2 = p.2) :
    computeHostnameAverages [mv] = l := by
  rw [computeHostnameAverages]
  have hkeys : collectUniqueKeys [mv] (fun m => m.requests.hostnames.getD [])
      = l.map Prod.fst := by
    simp [collectUniqueKeys, hm, List.Nodup.dedup hn]
  rw [hkeys]
  exact computeAveragesForKeys_single mv _ l (fun k => by simp [hm]) hn hv

theorem computeEtldPlusOneAverages_single (mv : Metrics) (l : List (String × ℚ))
    (hm : mv.requests.etldPlus1s = some l)
    (hn : (l.map Prod.fst).Nodup) (hv : ∀ p ∈ l, 0 < p.2 ∧ toFixed2 p.2 = p.2) :
    computeEtldPlusOneAverages [mv] = l := by
  rw [computeEtldPlusOneAverages]
  have hkeys : collectUniqueKeys [mv] (fun m => m.requests.etldPlus1s.getD [])
      = l.map Prod.fst := by
    simp [collectUniqueKeys, hm, List.Nodup.dedup hn]
  rw [hkeys]
  exact computeAveragesForKeys_single mv _ l (fun k => by simp [hm]) hn hv

/-! ### Claims -/

/-- C2: `computeAverageMetrics` applied to an empty sequence of `Metrics`
always fails (the throw is modelled as `none`); it never returns any record,
in particular never a zero-filled one. -/
theorem C2_empty_input_fails : computeAverageMetrics [] = none := rfl

/-- C1: on every successful run of `computeAverageMetrics`, the returned
`hostnames` and `etldPlus1s` mappings are determined key by key over the
union of keys of all runs: a key maps to the sum of its per-run values (a run
missing the key contributing `0`) divided by the total number of runs and
rounded to 2 decimal places, and it appears in the mapping exactly when this
average is strictly positive (any key outside the union has sum `0`, hence
average `0`, hence is absent as well). -/
theorem C1_key_averages (metricsArray : List Metrics) (out : Metrics)
    (h : computeAverageMetrics metricsArray = some out) (k : String) :
    (recGet (out.requests.hostnames.getD []) k =
      if 0 < toFixed2 ((metricsArray.map
            (fun m => (recGet (m.requests.hostnames.getD []) k).getD 0)).sum
          / (metricsArray.length : ℚ))
      then some (toFixed2 ((metricsArray.map
            (fun m => (recGet (m.requests.hostnames.getD []) k).getD 0)).sum
          / (metricsArray.length : ℚ)))
      else none) ∧
    (recGet (out.requests.etldPlus1s.getD []) k =
      if 0 < toFixed2 ((metricsArray.map
            (fun m => (recGet (m.requests.etldPlus1s.getD []) k).getD 0)).sum
          / (metricsArray.length : ℚ))
      then some (toFixed2 ((metricsArray.map
            (fun m => (recGet (m.requests.etldPlus1s.getD []) k).getD 0)).sum
          / (metricsArray.length : ℚ)))
      else none) := by
  cases metricsArray with
  | nil => simp [computeAverageMetrics] at h
  | cons m0 rest =>
    obtain rfl := computeAverageMetrics_cons_eq m0 rest out h
    constructor
    · show recGet (computeHostnameAverages (m0 :: rest)) k = _
      rw [computeHostnameAverages,
        recGet_computeAveragesForKeys _ _ _ (nodup_collectUniqueKeys _ _) k]
      by_cases hk : k ∈ collectUniqueKeys (m0 :: rest) (fun m => m.requests.hostnames.getD [])
      · rw [if_pos hk]
      · rw [if_neg hk, sum_zero_of_not_mem_collectUniqueKeys _ _ _ hk]
        simp [toFixed2_zero]
    · show recGet (computeEtldPlusOneAverages (m0 :: rest)) k = _
      rw [computeEtldPlusOneAverages,
        recGet_computeAveragesForKeys _ _ _ (nodup_collectUniqueKeys _ _) k]
      by_cases hk : k ∈ collectUniqueKeys (m0 :: rest) (fun m => m.requests.etldPlus1s.getD [])
      · rw [if_pos hk]
      · rw [if_neg hk, sum_zero_of_not_mem_collectUniqueKeys _ _ _ hk]
        simp [toFixed2_zero]

/-- C1 witness: on the concrete three-run input `c1Runs`, the key
`once.com` (present in 1 of 3 runs with value 3) and the key `zero.com`
(present with value 0 in every run) obey the pointwise average formula; by
evaluation the former yields `1` and the latter is absent. -/
theorem C1_key_averages_witness :
    computeAverageMetrics c1Runs = some c1Out ∧
    (recGet (c1Out.requests.hostnames.getD []) "once.com" =
      if 0 < toFixed2 ((c1Runs.map
            (fun m => (recGet (m.requests.hostnames.getD []) "once.com").getD 0)).sum
          / (c1Runs.length : ℚ))
      then some (toFixed2 ((c1Runs.map
            (fun m => (recGet (m.requests.hostnames.getD []) "once.com").getD 0)).sum
          / (c1Runs.length : ℚ)))
      else none) ∧
    (recGet (c1Out.requests.hostnames.getD []) "zero.com" =
      if 0 < toFixed2 ((c1Runs.map
            (fun m => (recGet (m.requests.hostnames.getD []) "zero.com").getD 0)).sum
          / (c1Runs.length : ℚ))
      then some (toFixed2 ((c1Runs.map
            (fun m => (recGet (m.requests.hostnames.getD []) "zero.com").getD 0)).sum
          / (c1Runs.length : ℚ)))
      else none) ∧
    recGet (c1Out.requests.hostnames.getD []) "once.com" = some 1 ∧
    recGet (c1Out.requests.hostnames.getD []) "zero.com" = none :=
  ⟨by with_unfolding_all decide,
   (C1_key_averages c1Runs c1Out (by with_unfolding_all decide) "once.com").1,
   (C1_key_averages c1Runs c1Out (by with_unfolding_all decide) "zero.com").1,
   by with_unfolding_all decide, by with_unfolding_all decide⟩

/-- C7: on every successful run of `computeAverageMetrics`, the returned
`loadTimeMs` is the arithmetic mean of the `loadTimeMs` values of exactly the
runs where the field is defined, rounded to 2 decimal places; runs with the
field undefined do not enter the denominator, and when no run defines it the
result is `0`. -/
theorem C7_loadTime_mean (metricsArray : List Metrics) (out : Metrics)
    (h : computeAverageMetrics metricsArray = some out) :
    out.loadTimeMs = some (
      if metricsArray.filterMap (fun m => m.loadTimeMs) = [] then 0
      else toFixed2 ((metricsArray.filterMap (fun m => m.loadTimeMs)).sum
        / ((metricsArray.filterMap (fun m => m.loadTimeMs)).length : ℚ))) := by
  cases metricsArray with
  | nil => simp [computeAverageMetrics] at h
  | cons m0 rest =>
    obtain rfl := computeAverageMetrics_cons_eq m0 rest out h
    show some (calculateAverage (m0 :: rest) (fun m => m.loadTimeMs)) = _
    rw [calculateAverage_eq_filterMap]

/-- C7 witness: on the concrete runs `c7Runs` (loadTimeMs 100, undefined,
300), the returned `loadTimeMs` is the mean over the two defined runs; by
evaluation it is `200`. -/
theorem C7_loadTime_mean_witness :
    computeAverageMetrics c7Runs = some c7Out ∧
    c7Out.loadTimeMs = some (
      if c7Runs.filterMap (fun m => m.loadTimeMs) = [] then 0
      else toFixed2 ((c7Runs.filterMap (fun m => m.loadTimeMs)).sum
        / ((c7Runs.filterMap (fun m => m.loadTimeMs)).length : ℚ))) ∧
    c7Out.loadTimeMs = some 200 :=
  ⟨by with_unfolding_all decide,
   C7_loadTime_mean c7Runs c7Out (by with_unfolding_all decide),
   by with_unfolding_all decide⟩

/-! ### Sum lemmas and rounding bounds used by C8 -/

theorem sum_map_add_of_mem {l : List Metrics} {f g k : Metrics → ℚ}
    (h : ∀ m ∈ l, f m + g m = k m) :
    (l.map f).sum + (l.map g).sum = (l.map k).sum := by
  induction l with
  | nil => simp
  | cons a t ih =>
    simp only [List.map_cons, List.sum_cons]
    have ha := h a (by simp)
    have ht := ih (fun m hm => h m (by simp [hm]))
    linarith

theorem sum_map_le_of_mem {l : List Metrics} {f g : Metrics → ℚ}
    (h : ∀ m ∈ l, f m ≤ g m) : (l.map f).sum ≤ (l.map g).sum := by
  induction l with
  | nil => simp
  | cons a t ih =>
    simp only [List.map_cons, List.sum_cons]
    have ha := h a (by simp)
    have ht := ih (fun m hm => h m (by simp [hm]))
    linarith

theorem toFixed2_add_sub_bound {b nb t : ℚ} (hsum : b + nb = t) :
    |toFixed2 b + toFixed2 nb - toFixed2 t| ≤ 3 / 200 := by
  have h1 := abs_toFixed2_sub b
  have h2 := abs_toFixed2_sub nb
  have h3 := abs_toFixed2_sub t
  rw [abs_le] at h1 h2 h3 ⊢
  constructor <;> linarith

/-- C8 (amended): when every run satisfies the three request invariants, the
averaged record still satisfies `thirdPartyRequests ≤ totalRequests`
exactly, while the two additive identities hold only up to the independent
2-decimal rounding of the three fields involved, that is, with error at most
`3/200 = 0.015`. -/
theorem C8_invariants_up_to_rounding (m0 : Metrics) (rest : List Metrics) (out : Metrics)
    (h : computeAverageMetrics (m0 :: rest) = some out)
    (hinv : ∀ m ∈ m0 :: rest,
      m.requests.blockedRequests + m.requests.notBlockedRequests = m.requests.totalRequests ∧
      m.requests.thirdPartyBlockedRequests + m.requests.thirdPartyNotBlockedRequests
        = m.requests.thirdPartyRequests ∧
      m.requests.thirdPartyRequests ≤ m.requests.totalRequests) :
    out.requests.thirdPartyRequests ≤ out.requests.totalRequests ∧
    |out.requests.blockedRequests + out.requests.notBlockedRequests
      - out.requests.totalRequests| ≤ 3 / 200 ∧
    |out.requests.thirdPartyBlockedRequests + out.requests.thirdPartyNotBlockedRequests
      - out.requests.thirdPartyRequests| ≤ 3 / 200 := by
  have hne : (m0 :: rest) ≠ [] := by simp
  have hlen : (0 : ℚ) < ((m0 :: rest).length : ℚ) := by
    have : 0 < (m0 :: rest).length := by simp
    exact_mod_cast this
  have hspec := computeAverageMetrics_cons_eq m0 rest out h
  have hB : out.requests.blockedRequests =
      toFixed2 (((m0 :: rest).map (fun m => m.requests.blockedRequests)).sum
        / (((m0 :: rest).length : ℚ))) := by
    rw [hspec]; exact calculateAverage_total _ _ hne
  have hNB : out.requests.notBlockedRequests =
      toFixed2 (((m0 :: rest).map (fun m => m.requests.notBlockedRequests)).sum
        / (((m0 :: rest).length : ℚ))) := by
    rw [hspec]; exact calculateAverage_total _ _ hne
  have hT : out.requests.totalRequests =
      toFixed2 (((m0 :: rest).map (fun m => m.requests.totalRequests)).sum
        / (((m0 :: rest).length : ℚ))) := by
    rw [hspec]; exact calculateAverage_total _ _ hne
  have hTPB : out.requests.thirdPartyBlockedRequests =
      toFixed2 (((m0 :: rest).map (fun m => m.requests.thirdPartyBlockedRequests)).sum
        / (((m0 :: rest).length : ℚ))) := by
    rw [hspec]; exact calculateAverage_total _ _ hne
  have hTPNB : out.requests.thirdPartyNotBlockedRequests =
      toFixed2 (((m0 :: rest).map (fun m => m.requests.thirdPartyNotBlockedRequests)).sum
        / (((m0 :: rest).length : ℚ))) := by
    rw [hspec]; exact calculateAverage_total _ _ hne
  have hTP : out.requests.thirdPartyRequests =
      toFixed2 (((m0 :: rest).map (fun m => m.requests.thirdPartyRequests)).sum
        / (((m0 :: rest).length : ℚ))) := by
    rw [hspec]; exact calculateAverage_total _ _ hne
  refine ⟨?_, ?_, ?_⟩
  · rw [hTP, hT]
    exact toFixed2_mono (div_le_div_of_nonneg_right
      (sum_map_le_of_mem (fun m hm => (hinv m hm).2.2)) hlen.le)
  · rw [hB, hNB, hT]
    apply toFixed2_add_sub_bound
    rw [← add_div]
    congr 1
    exact sum_map_add_of_mem (fun m hm => (hinv m hm).1)
  · rw [hTPB, hTPNB, hTP]
    apply toFixed2_add_sub_bound
    rw [← add_div]
    congr 1
    exact sum_map_add_of_mem (fun m hm => (hinv m hm).2.1)

/-- C8 counterexample: the three runs of `c8Runs` each satisfy all three
invariants, yet the averaged record has `blockedRequests = 0.33`,
`notBlockedRequests = 0.33` and `totalRequests = 0.67`, so the first
invariant fails on the output. -/
theorem C8_counterexample :
    (∀ m ∈ c8Runs,
      m.requests.blockedRequests + m.requests.notBlockedRequests = m.requests.totalRequests ∧
      m.requests.thirdPartyBlockedRequests + m.requests.thirdPartyNotBlockedRequests
        = m.requests.thirdPartyRequests ∧
      m.requests.thirdPartyRequests ≤ m.requests.totalRequests) ∧
    computeAverageMetrics c8Runs = some c8Out ∧
    c8Out.requests.blockedRequests + c8Out.requests.notBlockedRequests
      ≠ c8Out.requests.totalRequests := by
  with_unfolding_all decide

/-- C8 witness for the amended theorem, at the single run `sampleMetric`. -/
theorem C8_invariants_up_to_rounding_witness :
    (∀ m ∈ [sampleMetric],
      m.requests.blockedRequests + m.requests.notBlockedRequests = m.requests.totalRequests ∧
      m.requests.thirdPartyBlockedRequests + m.requests.thirdPartyNotBlockedRequests
        = m.requests.thirdPartyRequests ∧
      m.requests.thirdPartyRequests ≤ m.requests.totalRequests) ∧
    computeAverageMetrics [sampleMetric] = some c8wOut ∧
    (c8wOut.requests.thirdPartyRequests ≤ c8wOut.requests.totalRequests ∧
     |c8wOut.requests.blockedRequests + c8wOut.requests.notBlockedRequests
       - c8wOut.requests.totalRequests| ≤ 3 / 200 ∧
     |c8wOut.requests.thirdPartyBlockedRequests + c8wOut.requests.thirdPartyNotBlockedRequests
       - c8wOut.requests.thirdPartyRequests| ≤ 3 / 200) :=
  ⟨by with_unfolding_all decide, by with_unfolding_all decide,
   C8_invariants_up_to_rounding sampleMetric [] c8wOut
     (by with_unfolding_all decide) (by with_unfolding_all decide)⟩

/-- C9: feeding a record produced by `computeAverageMetrics` back through it
as a one-element sequence returns the same record: single-run averaging of an
already-averaged record is the identity. -/
theorem C9_idempotent (metricsArray : List Metrics) (out : Metrics)
    (h : computeAverageMetrics metricsArray = some out) :
    computeAverageMetrics [out] = some out := by
  cases metricsArray with
  | nil => simp [computeAverageMetrics] at h
  | cons m0 rest =>
    have hspec := computeAverageMetrics_cons_eq m0 rest out h
    have hH : out.requests.hostnames = some (computeHostnameAverages (m0 :: rest)) := by
      rw [hspec]
    have hE : out.requests.etldPlus1s = some (computeEtldPlusOneAverages (m0 :: rest)) := by
      rw [hspec]
    have hdom : out.domContentLoadTimeMs =
        some (calculateAverage (m0 :: rest) (fun m => m.domContentLoadTimeMs)) := by
      rw [hspec]
    have hload : out.loadTimeMs =
        some (calculateAverage (m0 :: rest) (fun m => m.loadTimeMs)) := by
      rw [hspec]
    have hwtb : out.weight.totalBytes =
        calculateAverage (m0 :: rest) (fun m => some m.weight.totalBytes) := by
      rw [hspec]
    have htpb : out.weight.thirdPartyBytes =
        some (calculateAverage (m0 :: rest) (fun m => m.weight.thirdPartyBytes)) := by
      rw [hspec]
    have hr1 : out.requests.totalRequests =
        calculateAverage (m0 :: rest) (fun m => some m.requests.totalRequests) := by
      rw [hspec]
    have hr2 : out.requests.blockedRequests =
        calculateAverage (m0 :: rest) (fun m => some m.requests.blockedRequests) := by
      rw [hspec]
    have hr3 : out.requests.notBlockedRequests =
        calculateAverage (m0 :: rest) (fun m => some m.requests.notBlockedRequests) := by
      rw [hspec]
    have hr4 : out.requests.thirdPartyRequests =
        calculateAverage (m0 :: rest) (fun m => some m.requests.thirdPartyRequests) := by
      rw [hspec]
    have hr5 : out.requests.thirdPartyBlockedRequests =
        calculateAverage (m0 :: rest) (fun m => some m.requests.thirdPartyBlockedRequests) := by
      rw [hspec]
    have hr6 : out.requests.thirdPartyNotBlockedRequests =
        calculateAverage (m0 :: rest) (fun m => some m.requests.thirdPartyNotBlockedRequests) := by
      rw [hspec]
    have hHn : ((computeHostnameAverages (m0 :: rest)).map Prod.fst).Nodup :=
      (computeAveragesForKeys_keys_sublist _ _ _).nodup (nodup_collectUniqueKeys _ _)
    have hEn : ((computeEtldPlusOneAverages (m0 :: rest)).map Prod.fst).Nodup :=
      (computeAveragesForKeys_keys_sublist _ _ _).nodup (nodup_collectUniqueKeys _ _)
    have hHv : ∀ p ∈ computeHostnameAverages (m0 :: rest), 0 < p.2 ∧ toFixed2 p.2 = p.2 :=
      fun p hp => (mem_computeAveragesForKeys _ _ _ p hp).2
    have hEv : ∀ p ∈ computeEtldPlusOneAverages (m0 :: rest), 0 < p.2 ∧ toFixed2 p.2 = p.2 :=
      fun p hp => (mem_computeAveragesForKeys _ _ _ p hp).2
    have hHrec : computeHostnameAverages [out] = computeHostnameAverages (m0 :: rest) :=
      computeHostnameAverages_single out _ hH hHn hHv
    have hErec : computeEtldPlusOneAverages [out] = computeEtldPlusOneAverages (m0 :: rest) :=
      computeEtldPlusOneAverages_single out _ hE hEn hEv
    simp only [computeAverageMetrics, List.any_cons, List.any_nil, hH, hE,
      Option.isNone_some, Bool.or_self, Bool.or_false, Bool.false_eq_true, if_false]
    refine congrArg some ?_
    refine Metrics.ext rfl rfl rfl rfl rfl ?_ ?_ ?_ ?_
    · simp [calculateAverage_single, hdom, toFixed2_calculateAverage]
    · simp [calculateAverage_single, hload, toFixed2_calculateAverage]
    · refine Weight.ext ?_ ?_
      · simp [calculateAverage_single, hwtb, toFixed2_calculateAverage]
      · simp [calculateAverage_single, htpb, toFixed2_calculateAverage]
    · refine Requests.ext ?_ ?_ ?_ ?_ ?_ ?_ ?_ ?_
      · simp [calculateAverage_single, hr1, toFixed2_calculateAverage]
      · simp [calculateAverage_single, hr2, toFixed2_calculateAverage]
      · simp [calculateAverage_single, hr3, toFixed2_calculateAverage]
      · simp [calculateAverage_single, hr4, toFixed2_calculateAverage]
      · simp [calculateAverage_single, hr5, toFixed2_calculateAverage]
      · simp [calculateAverage_single, hr6, toFixed2_calculateAverage]
      · simp [hHrec, hH]
      · simp [hErec, hE]

/-- C9 witness: averaging the single run `sampleMetric` yields `c9Out`, and
re-averaging `[c9Out]` returns `c9Out` itself. -/
theorem C9_idempotent_witness :
    computeAverageMetrics [sampleMetric] = some c9Out ∧
    computeAverageMetrics [c9Out] = some c9Out :=
  ⟨by with_unfolding_all decide,
   C9_idempotent [sampleMetric] c9Out (by with_unfolding_all decide)⟩

/-! ### Aggregation lemmas for `computeStatistics` -/

theorem foldl_fst_eq {σ τ ι : Type} (f : σ × τ → ι → σ × τ) (g : σ → ι → σ)
    (hfg : ∀ s i, (f s i).1 = g s.1 i) (l : List ι) (s : σ × τ) :
    (l.foldl f s).1 = l.foldl g s.1 := by
  induction l generalizing s with
  | nil => rfl
  | cons a t ih => rw [List.foldl_cons, List.foldl_cons, ih, hfg]

theorem processAllDomains_fst (gd : String → Option String) (data : MetricsData)
    (trackersInfo : TrackersData) (companiesInfo : CompaniesData)
    (st : AggregatedData × CollectedData) :
    (processAllDomains gd data trackersInfo companiesInfo st).1 =
      ((data.map (fun dp => dp.2)).flatten).foldl (fun a e => aggUpdate e a) st.1 := by
  rw [List.foldl_flatten, List.foldl_map]
  unfold processAllDomains
  apply foldl_fst_eq
  intro s dp
  apply foldl_fst_eq
  intro s2 e
  cases hh : e.requests.hostnames <;> cases he : e.requests.etldPlus1s <;>
    simp [aggUpdate, processHostnameData, processEtldPlus1Data, hh, he]

theorem foldl_aggUpdate_eq (l : List Metrics) (a : AggregatedData) :
    l.foldl (fun x e => aggUpdate e x) a =
      { totalDomContentLoadTime :=
          a.totalDomContentLoadTime + (l.map (fun e => e.domContentLoadTimeMs.getD 0)).sum
        totalLoadTime := a.totalLoadTime + (l.map (fun e => e.loadTimeMs.getD 0)).sum
        totalBytes := a.totalBytes + (l.map (fun e => e.weight.totalBytes)).sum
        totalRequests := a.totalRequests + (l.map (fun e => e.requests.totalRequests)).sum
        totalThirdPartyRequests :=
          a.totalThirdPartyRequests + (l.map (fun e => e.requests.thirdPartyRequests)).sum
        totalBlockedRequests :=
          a.totalBlockedRequests + (l.map (fun e => e.requests.blockedRequests)).sum
        totalHostnames := a.totalHostnames + (l.map hostKeyCount).sum
        totalEtldPlus1s := a.totalEtldPlus1s + (l.map etldKeyCount).sum } := by
  induction l generalizing a with
  | nil => simp
  | cons e t ih =>
    rw [List.foldl_cons, ih]
    cases hh : e.requests.hostnames <;> cases he : e.requests.etldPlus1s <;>
      simp [aggUpdate, aggregateBasicMetrics, hostKeyCount, etldKeyCount, hh, he, add_assoc]

/-- C10: `totalHostnames` in the result of `computeStatistics` is the sum,
over the entries that carry a `hostnames` record, of the number of distinct
keys of that record (`hostKeyCount`), and `totalEtldPlus1s` likewise over
`etldPlus1s` records — counts of distinct names, not sums of the per-name
request counts stored as values. -/
theorem C10_key_counts (gd : String → Option String) (data : MetricsData)
    (trackersInfo : TrackersData) (companiesInfo : CompaniesData) :
    (computeStatistics gd data trackersInfo companiesInfo).totalHostnames
      = ((data.map (fun dp => dp.2)).flatten.map hostKeyCount).sum ∧
    (computeStatistics gd data trackersInfo companiesInfo).totalEtldPlus1s
      = ((data.map (fun dp => dp.2)).flatten.map etldKeyCount).sum := by
  constructor <;>
    simp [computeStatistics, assembleResult, calculateAverages, processAllDomains_fst,
      foldl_aggUpdate_eq, initializeAggregatedData]

/-- C6 (amended): for `MetricsData` in which every domain holds exactly one
entry, `computeStatistics` returns `siteCount` equal to the number of
domains; the load-time, byte and key-count totals are exact sums over the
entries (missing optional values contributing 0); the three request-count
totals are those sums rounded to the nearest integer by `toFixed(0)`; and
every `average*` field equals the corresponding UNROUNDED sum divided by
`siteCount`. -/
theorem C6_totals_and_averages (gd : String → Option String) (data : MetricsData)
    (trackersInfo : TrackersData) (companiesInfo : CompaniesData)
    (_hone : ∀ dp ∈ data, (dp.2 : List Metrics).length = 1) :
    (computeStatistics gd data trackersInfo companiesInfo).siteCount = data.length ∧
    (computeStatistics gd data trackersInfo companiesInfo).totalLoadTime
      = ((data.map (fun dp => dp.2)).flatten.map (fun e => e.loadTimeMs.getD 0)).sum ∧
    (computeStatistics gd data trackersInfo companiesInfo).totalBytes
      = ((data.map (fun dp => dp.2)).flatten.map (fun e => e.weight.totalBytes)).sum ∧
    (computeStatistics gd data trackersInfo companiesInfo).totalRequests
      = toFixed0 (((data.map (fun dp => dp.2)).flatten.map
          (fun e => e.requests.totalRequests)).sum) ∧
    (computeStatistics gd data trackersInfo companiesInfo).totalThirdPartyRequests
      = toFixed0 (((data.map (fun dp => dp.2)).flatten.map
          (fun e => e.requests.thirdPartyRequests)).sum) ∧
    (computeStatistics gd data trackersInfo companiesInfo).totalBlockedRequests
      = toFixed0 (((data.map (fun dp => dp.2)).flatten.map
          (fun e => e.requests.blockedRequests)).sum) ∧
    (computeStatistics gd data trackersInfo companiesInfo).averageDomContentLoadTime
      = ((data.map (fun dp => dp.2)).flatten.map
          (fun e => e.domContentLoadTimeMs.getD 0)).sum / (data.length : ℚ) ∧
    (computeStatistics gd data trackersInfo companiesInfo).averageLoadTime
      = ((data.map (fun dp => dp.2)).flatten.map
          (fun e => e.loadTimeMs.getD 0)).sum / (data.length : ℚ) ∧
    (computeStatistics gd data trackersInfo companiesInfo).averageBytes
      = ((data.map (fun dp => dp.2)).flatten.map
          (fun e => e.weight.totalBytes)).sum / (data.length : ℚ) ∧
    (computeStatistics gd data trackersInfo companiesInfo).averageRequests
      = ((data.map (fun dp => dp.2)).flatten.map
          (fun e => e.requests.totalRequests)).sum / (data.length : ℚ) ∧
    (computeStatistics gd data trackersInfo companiesInfo).averageThirdPartyRequests
      = ((data.map (fun dp => dp.2)).flatten.map
          (fun e => e.requests.thirdPartyRequests)).sum / (data.length : ℚ) ∧
    (computeStatistics gd data trackersInfo companiesInfo).averageBlockedRequests
      = ((data.map (fun dp => dp.2)).flatten.map
          (fun e => e.requests.blockedRequests)).sum / (data.length : ℚ) ∧
    (computeStatistics gd data trackersInfo companiesInfo).averageHostnames
      = (((data.map (fun dp => dp.2)).flatten.map hostKeyCount).sum : ℚ) / (data.length : ℚ) ∧
    (computeStatistics gd data trackersInfo companiesInfo).averageEtldPlus1s
      = (((data.map (fun dp => dp.2)).flatten.map etldKeyCount).sum : ℚ) / (data.length : ℚ) := by
  refine ⟨?_, ?_, ?_, ?_, ?_, ?_, ?_, ?_, ?_, ?_, ?_, ?_, ?_, ?_⟩ <;>
    simp [computeStatistics, assembleResult, calculateAverages, processAllDomains_fst,
      foldl_aggUpdate_eq, initializeAggregatedData]

/-- C6 counterexample: a single domain with a single entry whose
`totalRequests` is `0.5`; the reported `totalRequests` is `1` (rounded by
`toFixed(0)`), not the sum `0.5` the claim asserts. -/
theorem C6_counterexample :
    (∀ dp ∈ c6BadData, (dp.2 : List Metrics).length = 1) ∧
    (computeStatistics gdNone c6BadData emptyTrackers emptyCompanies).totalRequests
      ≠ ((c6BadData.map (fun dp => dp.2)).flatten.map
          (fun e => e.requests.totalRequests)).sum := by
  with_unfolding_all decide

/-- C6 witness for the amended theorem, at the two-domain scenario of the
spec: the totals/averages formulas hold, and evaluation gives
`totalRequests = 30`, `averageRequests = 15`, `totalBlockedRequests = 7`,
`averageBlockedRequests = 3.5`. -/
theorem C6_totals_and_averages_witness :
    (∀ dp ∈ scenData, (dp.2 : List Metrics).length = 1) ∧
    (computeStatistics gdNone scenData emptyTrackers emptyCompanies).siteCount
      = scenData.length ∧
    (computeStatistics gdNone scenData emptyTrackers emptyCompanies).totalRequests
      = toFixed0 (((scenData.map (fun dp => dp.2)).flatten.map
          (fun e => e.requests.totalRequests)).sum) ∧
    ((computeStatistics gdNone scenData emptyTrackers emptyCompanies).totalRequests = 30 ∧
     (computeStatistics gdNone scenData emptyTrackers emptyCompanies).averageRequests = 15 ∧
     (computeStatistics gdNone scenData emptyTrackers emptyCompanies).totalBlockedRequests = 7 ∧
     (computeStatistics gdNone scenData emptyTrackers emptyCompanies).averageBlockedRequests
       = 7 / 2) :=
  ⟨by with_unfolding_all decide,
   (C6_totals_and_averages gdNone scenData emptyTrackers emptyCompanies
     (by with_unfolding_all decide)).1,
   (C6_totals_and_averages gdNone scenData emptyTrackers emptyCompanies
     (by with_unfolding_all decide)).2.2.2.1,
   by with_unfolding_all decide⟩

/-- C3 evaluation at the failing input: each of the two files has a domain
meeting the threshold (average 20 requests), their intersection is empty,
yet `findCommonDomains` returns the empty set (`some []`) instead of
signalling the fatal error (`none`) — in JS `!commonDomains` is false for an
empty `Set` — and report generation proceeds to produce a `ReportResult`
(with `siteCount = 0`) for every input file. The guard can only fire
(`none`) on an empty list of input files. -/
theorem C3_code_eval :
    findCommonDomains [[("a.com", [c3Entry])]] = some ["a.com"] ∧
    findCommonDomains c3Data = some [] ∧
    (generateReportResults gdNone c3Data [] ["m1.json", "m2.json"]
        emptyTrackers emptyCompanies).map (fun p => (p.1, p.2.siteCount))
      = [("m1.json", 0), ("m2.json", 0)] ∧
    findCommonDomains [] = none := by
  with_unfolding_all decide

/-- C4 counterexample: the hostname `localhost` has no entry in the (empty)
tracker table and no derivable eTLD+1, yet `computeStatistics` reports it in
both `trackersWebsitesData` and `companiesWebsitesData` (under the hostname
itself) instead of skipping it. -/
theorem C4_counterexample :
    recGet emptyTrackers.trackerDomains "localhost" = none ∧
    gdNone "localhost" = none ∧
    (computeStatistics gdNone c4Data emptyTrackers emptyCompanies).trackersWebsitesData
      = [("localhost", 1)] ∧
    (computeStatistics gdNone c4Data emptyTrackers emptyCompanies).companiesWebsitesData
      = [("localhost", 1)] := by
  with_unfolding_all decide

/-- C4 (amended): a non-empty hostname with no exact `trackerDomains` match
whose eTLD+1 cannot be derived is NOT skipped: both `processTrackers` and
`processCompanies` fall through with the hostname itself as the attributed
name, bumping the tally and the reached-websites set under that hostname;
the hostname also still feeds the raw per-hostname tally. (Only the empty
hostname, being falsy, is skipped.) -/
theorem C4_unmatched_hostname_fallthrough
    (gd : String → Option String) (ti : TrackersData) (ci : CompaniesData)
    (hostname : String) (c : ℚ) (domain : String)
    (tD cD : List (String × ℚ)) (tW cW : List (String × List String))
    (e : Metrics) (agg : AggregatedData) (col : CollectedData)
    (h1 : recGet ti.trackerDomains hostname = none)
    (h2 : gd hostname = none)
    (h3 : hostname ≠ "")
    (he : e.requests.hostnames = some [(hostname, c)]) :
    processTrackers gd [(hostname, c)] ti tD tW domain
      = (recBump tD hostname c, recAddSet tW hostname domain) ∧
    processCompanies gd domain [(hostname, c)] ti ci cD cW
      = (recBump cD hostname c, recAddSet cW hostname domain) ∧
    ((processHostnameData gd domain e ti ci agg col).2).hostnamesData
      = recBump col.hostnamesData hostname c := by
  have hlt : lookupTracker ti hostname = none := by simp [lookupTracker, h1]
  have htn : trackerNameFor gd ti hostname = some hostname := by
    simp [trackerNameFor, hlt, h2]
  have hcn : companyNameFor gd ti ci hostname = some hostname := by
    simp [companyNameFor, hlt, h2]
  have hne : (hostname != "") = true := by simp [h3]
  refine ⟨?_, ?_, ?_⟩
  · simp [processTrackers, htn, hne, h3]
  · simp [processCompanies, hcn, hne, h3]
  · simp [processHostnameData, he]

/-- C4 witness for the amended theorem, at the concrete hostname
`localhost` with count 3 observed from `site.com`. -/
theorem C4_unmatched_hostname_fallthrough_witness :
    recGet emptyTrackers.trackerDomains "localhost" = none ∧
    gdNone "localhost" = none ∧
    "localhost" ≠ "" ∧
    (sampleWith [("localhost", 3)] []).requests.hostnames = some [("localhost", 3)] ∧
    (processTrackers gdNone [("localhost", 3)] emptyTrackers [] [] "site.com"
        = (recBump [] "localhost" 3, recAddSet [] "localhost" "site.com") ∧
     processCompanies gdNone "site.com" [("localhost", 3)] emptyTrackers emptyCompanies [] []
        = (recBump [] "localhost" 3, recAddSet [] "localhost" "site.com") ∧
     ((processHostnameData gdNone "site.com" (sampleWith [("localhost", 3)] [])
         emptyTrackers emptyCompanies initializeAggregatedData
         initializeCollectedData).2).hostnamesData
        = recBump initializeCollectedData.hostnamesData "localhost" 3) :=
  ⟨by with_unfolding_all decide, rfl, by decide, by with_unfolding_all decide,
   C4_unmatched_hostname_fallthrough gdNone emptyTrackers emptyCompanies "localhost" 3
     "site.com" [] [] [] [] (sampleWith [("localhost", 3)] []) initializeAggregatedData
     initializeCollectedData (by with_unfolding_all decide) rfl (by decide)
     (by with_unfolding_all decide)⟩

/-- C5 counterexample: `t.a.com` resolves (exact tier) to a tracker whose
`companyId` is null and the companies table is empty, so by the claim the
hostname should contribute nothing; instead `processCompanies` tallies it
under the eTLD+1 `a.com`, including in `companiesWebsitesData`. -/
theorem C5_counterexample :
    recGet c5Trackers.trackerDomains "t.a.com" = some "tr1" ∧
    c5TrackerInfo.companyId = none ∧
    recGet emptyCompanies.companies "a" = none ∧
    processCompanies c5gd "site.com" [("t.a.com", 2)] c5Trackers emptyCompanies [] []
      = ([("a.com", 2)], [("a.com", ["site.com"])]) := by
  with_unfolding_all decide

/-- C5 (amended): for a hostname that resolves to a tracker by either tier,
`processCompanies` never skips it: when the tracker's `companyId` is truthy
and present in `companies` the tally key is that company's name, and
otherwise it is `getDomain(hostname) || hostname` (the eTLD+1, or the
hostname itself when none is derivable); the label-before-suffix heuristic
is not consulted for tracker-resolved hostnames. -/
theorem C5_company_attribution (gd : String → Option String) (ti : TrackersData)
    (ci : CompaniesData) (hostname domain : String) (c : ℚ)
    (cD : List (String × ℚ)) (cW : List (String × List String)) (tr : TrackerInfo)
    (hres : resolvedTracker gd ti hostname = some tr) :
    companyNameFor gd ti ci hostname
      = some (companyNameFromTracker ci tr (companyDefaultName gd hostname)) ∧
    (companyNameFromTracker ci tr (companyDefaultName gd hostname) ≠ "" →
      processCompanies gd domain [(hostname, c)] ti ci cD cW
        = (recBump cD (companyNameFromTracker ci tr (companyDefaultName gd hostname)) c,
           recAddSet cW (companyNameFromTracker ci tr (companyDefaultName gd hostname))
             domain)) := by
  have hname : companyNameFor gd ti ci hostname
      = some (companyNameFromTracker ci tr (companyDefaultName gd hostname)) := by
    unfold resolvedTracker at hres
    cases hl : lookupTracker ti hostname with
    | some tr2 =>
      rw [hl] at hres
      obtain rfl := Option.some_inj.mp hres
      simp [companyNameFor, hl, companyDefaultName]
    | none =>
      cases hg : gd hostname with
      | none =>
        rw [hl, hg] at hres
        simp at hres
      | some e =>
        rw [hl, hg] at hres
        by_cases he : (e != "") = true
        · have hres2 : lookupTracker ti e = some tr := by simpa [he] using hres
          simp [companyNameFor, hl, hg, he, hres2, companyDefaultName]
        · simp [he] at hres
  refine ⟨hname, fun hnm => ?_⟩
  have hne : (companyNameFromTracker ci tr (companyDefaultName gd hostname) != "") = true := by
    simp [hnm]
  simp [processCompanies, hname, hne, hnm]

/-- C5 witness for the amended theorem, at the concrete tracker-resolved
hostname `t.a.com`: the tracker has no usable `companyId`, so the tally key
is the default name `a.com`. -/
theorem C5_company_attribution_witness :
    resolvedTracker c5gd c5Trackers "t.a.com" = some c5TrackerInfo ∧
    companyNameFromTracker emptyCompanies c5TrackerInfo
      (companyDefaultName c5gd "t.a.com") ≠ "" ∧
    companyNameFor c5gd c5Trackers emptyCompanies "t.a.com"
      = some (companyNameFromTracker emptyCompanies c5TrackerInfo
          (companyDefaultName c5gd "t.a.com")) ∧
    processCompanies c5gd "site.com" [("t.a.com", 2)] c5Trackers emptyCompanies [] []
      = (recBump [] (companyNameFromTracker emptyCompanies c5TrackerInfo
            (companyDefaultName c5gd "t.a.com")) 2,
         recAddSet [] (companyNameFromTracker emptyCompanies c5TrackerInfo
            (companyDefaultName c5gd "t.a.com")) "site.com") :=
  ⟨by with_unfolding_all decide, by with_unfolding_all decide,
   (C5_company_attribution c5gd c5Trackers emptyCompanies "t.a.com" "site.com" 2 [] []
      c5TrackerInfo (by with_unfolding_all decide)).1,
   (C5_company_attribution c5gd c5Trackers emptyCompanies "t.a.com" "site.com" 2 [] []
      c5TrackerInfo (by with_unfolding_all decide)).2 (by with_unfolding_all decide)⟩
